import Mathlib

/-!
Verification of the g30esli drive-by-wire bridge
(`src/ros/src/actuation/vehicles/packages/ymc/node/g30esli_interface/g30esli_interface.cpp`).

Shallow embedding conventions:
* C++ `double` arithmetic is modelled exactly over `ℚ` (all constants of the source
  are decimal literals, so the modelled values are the intended real values).
* C++ float→integer conversions truncate toward zero and are undefined outside the
  target type's range; they are modelled by `doubleToUInt16` / `doubleToInt16`
  returning `none` on the undefined cases.
* int→unsigned conversions are reduction mod 2^w (`Int.emod`).
* The periodic transmit loop (`main`, lines 222–275) is modelled as a step function
  over the loop's persistent state: the two `static` locals `brake` and `heart_beat`.
  A `static` local is initialized only on the first execution of its declaration,
  which the model captures with an `Option` field.
* The telemetry reader (`readCanData`, lines 151–185) is modelled per line; an
  uncaught C++ exception or undefined behavior is an `Except.error` outcome.
-/

namespace G30esli

/-- Truncation toward zero, the C++ semantics of converting a floating-point value
to an integral type (for values whose truncation is representable). -/
def truncTowardZero (q : ℚ) : ℤ := if 0 ≤ q then ⌊q⌋ else ⌈q⌉

/-- C++ conversion of a `double` to `uint16_t`: truncate toward zero; undefined
(`none`) when the truncated value is not representable in `uint16_t`. -/
def doubleToUInt16 (q : ℚ) : Option ℕ :=
  let t := truncTowardZero q
  if 0 ≤ t ∧ t < 65536 then some t.toNat else none

/-- C++ conversion of a `double` to `int16_t`: truncate toward zero; undefined
(`none`) when the truncated value is not representable in `int16_t`. -/
def doubleToInt16 (q : ℚ) : Option ℤ :=
  let t := truncTowardZero q
  if -32768 ≤ t ∧ t ≤ 32767 then some t else none

/-- C++ conversion of an `int` to `unsigned char`: reduction mod 256 (well defined
for all values). -/
def intToUChar (z : ℤ) : ℕ := (Int.emod z 256).toNat

/-! ### twist_cmd_callback (source lines 69–80): the autonomous-command handler -/

/-- Result of the autonomous-command handler: the values stored into the globals
`g_target_velocity_ui16` and `g_steering_angle_deg_i16`. -/
structure TwistResult where
  targetVelocity : Option ℕ
  steeringAngle : Option ℤ
deriving DecidableEq

/-- Model of `twist_cmd_callback` (source lines 69–80). The external
`ymc::computeTargetSteeringAngleDegree` (declared in `ymc_can.h`, source not in this
repository) enters as the already-computed pre-offset steering angle
`computedSteerDeg`; `linearX` is `msg->twist.linear.x` in m/s. The source converts
m/s to km/h (`* 3.6`), adds the fixed `8.0` degree calibration offset to the steering
angle, scales both by `10.0`, negates the steering sign, and stores via the C++
float→integer conversions. -/
def twist_cmd_callback (computedSteerDeg linearX : ℚ) : TwistResult :=
  let target_velocity := linearX * 3.6
  let target_steering_angle_deg := computedSteerDeg + 8
  let target_velocity := target_velocity * 10
  let target_steering_angle_deg := target_steering_angle_deg * 10
  { targetVelocity := doubleToUInt16 target_velocity
    steeringAngle := doubleToInt16 (target_steering_angle_deg * (-1)) }

/-! ### current_joy_callback (source lines 87–128): the manual-override handler -/

/-- The dynamic steering ratio of the manual path (source lines 101–102):
`l2 = (-axes[3] + 1.0) / 2.0`, `ratio = 20.0 + 17.0 * l2`. -/
def steering_angle_ratio_deg (a3 : ℚ) : ℚ := 20 + 17 * ((-a3 + 1) / 2)

/-- Result of the manual-override handler: the values stored into `g_automode`,
`g_brake`, `g_shift`, `g_manual_target_velocity_ui16` and
`g_manual_steering_angle_deg_i16`. -/
structure JoyResult where
  automode : Bool
  brake : ℕ
  shift : ℕ
  manualVelocity : Option ℕ
  manualSteering : Option ℤ
deriving DecidableEq

/-- Model of `current_joy_callback` (source lines 87–128). `buttons i` is
`msg->buttons[i]` (int32), `axes i` is `msg->axes[i]` (float), `automode0` the prior
value of `g_automode`. Source order: clear `g_automode` on button 0 or axes 1/2;
throttle from axes 4 when button 1 is held (`16 * r2 + 3` km/h); steering from
axes 0 scaled by the dynamic ratio from axes 3, plus the `8.0` offset; brake by
priority button 0 > 2 > 3; shift from button 5; scale by 10 and store; finally
button 12 resumes autonomy and resets shift. -/
def current_joy_callback (buttons : ℕ → ℤ) (axes : ℕ → ℚ) (automode0 : Bool) :
    JoyResult :=
  let automode1 := if buttons 0 = 1 ∨ axes 1 ≠ 0 ∨ axes 2 ≠ 0 then false else automode0
  let target_velocity : ℚ :=
    if buttons 1 = 1 then 16 * ((-(axes 4) + 1) / 2) + 3 else 0
  let target_steering_angle_deg : ℚ := steering_angle_ratio_deg (axes 3) * axes 0 + 8
  let brake : ℕ :=
    if buttons 0 = 1 then 1
    else if buttons 2 = 1 then 2
    else if buttons 3 = 1 then 3
    else 0
  let shift0 : ℕ := intToUChar (buttons 5)
  let automode2 := if buttons 12 = 1 then true else automode1
  let shift1 := if buttons 12 = 1 then 0 else shift0
  { automode := automode2
    brake := brake
    shift := shift1
    manualVelocity := doubleToUInt16 (target_velocity * 10)
    manualSteering := doubleToInt16 (target_steering_angle_deg * 10 * (-1)) }

/-! ### The transmit loop (source lines 220–275) -/

/-- The shared state as read by one iteration of the transmit loop: the globals
`g_mode` (int, written by the keyboard thread `changeMode`), `g_shift` and `g_brake`
(unsigned char, written only by `current_joy_callback`, i.e. by the manual side),
`g_automode` (bool), and the four fixed-point command globals (auto fields written by
`twist_cmd_callback`, manual fields by `current_joy_callback`). -/
structure LoopInput where
  mode : ℤ
  shift : ℕ
  automode : Bool
  targetVelocity : ℕ
  manualTargetVelocity : ℕ
  steeringAngle : ℤ
  manualSteeringAngle : ℤ
  brake : ℕ
deriving DecidableEq

/-- The logical content of one outgoing control frame, before byte serialization. -/
structure ControlFrame where
  mode : ℕ
  shift : ℕ
  velocity : ℕ
  steeringAngle : ℤ
  brake : ℕ
  heartbeat : ℕ
deriving DecidableEq

/-- The per-tick read of the shared command state (source lines 225–230, ignoring
the `static` storage class of `brake`, which `loopTick` accounts for): velocity and
steering are resolved by `g_automode`; mode, shift and brake do not consult the
flag. -/
def selectCommand (s : LoopInput) : ControlFrame :=
  { mode := intToUChar s.mode
    shift := s.shift
    velocity := if s.automode then s.targetVelocity else s.manualTargetVelocity
    steeringAngle := if s.automode then s.steeringAngle else s.manualSteeringAngle
    brake := s.brake
    heartbeat := 0 }

/-- Modelled from the spec: `ymc::setCanData` (declared in `ymc_can.h`, source not in
this repository) serializes the frame as byte0=mode, byte1=shift, bytes2–3=velocity
(16 bit), bytes4–5=steeringAngle (16-bit two's complement), byte6=brake,
byte7=heartbeat. The spec leaves the byte order of the 16-bit fields open;
little-endian is chosen here (the claims below only touch bytes 6 and 7). -/
def setCanData (f : ControlFrame) : List ℕ :=
  [f.mode % 256, f.shift % 256,
   f.velocity % 256, f.velocity / 256 % 256,
   (Int.emod f.steeringAngle 65536).toNat % 256,
   (Int.emod f.steeringAngle 65536).toNat / 256 % 256,
   f.brake % 256, f.heartbeat % 256]

/-- The loop's persistent state: the two `static` locals of the loop body.
`brakeStatic = none` models the not-yet-executed initializer of
`static unsigned char brake = g_brake;` (line 230) — a C++ `static` local is
initialized only on the first execution of its declaration. `heart_beat` starts
at 0 (line 231). -/
structure LoopState where
  brakeStatic : Option ℕ
  heartbeat : ℕ
deriving DecidableEq

/-- Loop state before the first iteration. -/
def initialLoopState : LoopState := { brakeStatic := none, heartbeat := 0 }

/-- One iteration of the transmit loop (source lines 222–275): read the shared
state, build the frame (the brake byte comes from the `static` local, whose
initializer runs only on the first iteration; the commented-out stop state machine
never modifies it), send it, and increment the 8-bit heartbeat after sending. -/
def loopTick (inp : LoopInput) (st : LoopState) : ControlFrame × LoopState :=
  let sel := selectCommand inp
  let brake := st.brakeStatic.getD sel.brake
  let frame : ControlFrame :=
    { mode := sel.mode, shift := sel.shift, velocity := sel.velocity,
      steeringAngle := sel.steeringAngle, brake := brake, heartbeat := st.heartbeat }
  (frame, { brakeStatic := some brake, heartbeat := (st.heartbeat + 1) % 256 })

/-- The loop's persistent state before tick `n`, given the shared state read at
each tick. -/
def loopState (inputs : ℕ → LoopInput) : ℕ → LoopState
  | 0 => initialLoopState
  | n + 1 => (loopTick (inputs n) (loopState inputs n)).2

/-- The frame transmitted at tick `n`. -/
def sentFrame (inputs : ℕ → LoopInput) (n : ℕ) : ControlFrame :=
  (loopTick (inputs n) (loopState inputs n)).1

/-! ### The telemetry reader (source lines 151–185) -/

/-- Crash outcomes of the telemetry reader: undefined behavior or an uncaught C++
exception terminating the process. -/
inductive CrashReason where
  | eraseOutOfBounds
  | stoiException
  | fgetsOnNull
deriving DecidableEq

/-- Whitespace test used for tokenizing a bus-dump line. -/
def isSpaceChar (c : Char) : Bool :=
  c = ' ' ∨ c = '\t' ∨ c = '\n' ∨ c = '\r'

/-- Tokenizer worker: accumulates the current token (reversed) and splits at
whitespace, dropping empty tokens. -/
def splitStringAux : List Char → List Char → List String
  | [], acc => if acc = [] then [] else [String.mk acc.reverse]
  | c :: cs, acc =>
    if isSpaceChar c then
      (if acc = [] then [] else [String.mk acc.reverse]) ++ splitStringAux cs []
    else splitStringAux cs (c :: acc)

/-- Modelled from the spec: `ymc::splitString` (declared in
`g30esli_interface_util.h`, source not in this repository) splits a bus-dump line
on whitespace. -/
def splitString (s : String) : List String := splitStringAux s.data []

/-- Decimal digit value of a character, `none` for a non-digit. -/
def digitVal (c : Char) : Option ℕ :=
  if c = '0' then some 0 else if c = '1' then some 1
  else if c = '2' then some 2 else if c = '3' then some 3
  else if c = '4' then some 4 else if c = '5' then some 5
  else if c = '6' then some 6 else if c = '7' then some 7
  else if c = '8' then some 8 else if c = '9' then some 9
  else none

/-- Maximal leading run of decimal digits. -/
def takeDigits : List Char → List ℕ
  | [] => []
  | c :: cs =>
    match digitVal c with
    | some d => d :: takeDigits cs
    | none => []

/-- Value of a digit list read most-significant first. -/
def natOfDigits (ds : List ℕ) : ℕ := ds.foldl (fun acc d => acc * 10 + d) 0

/-- Core of `std::stoi` base 10 after whitespace skipping: optional sign, then a
nonempty digit run; `none` models a thrown `std::invalid_argument` (no conversion)
or `std::out_of_range` (outside the `int` range). -/
def cppStoiCore (cs : List Char) : Option ℤ :=
  let signed : ℤ × List Char :=
    match cs with
    | '-' :: r => (-1, r)
    | '+' :: r => (1, r)
    | _ => (1, cs)
  let ds := takeDigits signed.2
  if ds = [] then none
  else
    let v : ℤ := signed.1 * (natOfDigits ds : ℤ)
    if -2147483648 ≤ v ∧ v ≤ 2147483647 then some v else none

/-- Model of `std::stoi(s, nullptr, 10)` as called at source line 171; `none` is a
thrown exception, which no caller in the source catches. -/
def cppStoi (s : String) : Option ℤ := cppStoiCore (s.data.dropWhile isSpaceChar)

/-- Processing of one telemetry line by `readCanData` (source lines 156–182).
`translate` stands for the external `ymc::translateCanData` (source not in this
repository); it returns `none` for the RET_NO_PUBLISH sentinel. The source order
is: skip empty input; tokenize; erase the first three tokens of a copy (undefined
behavior when fewer than three tokens exist); `std::stoi` on token 1 (an uncaught
exception when it is not a number); translate; publish any non-sentinel velocity.
`Except.ok none` means the line produced no feedback event. -/
def readCanLine (translate : ℤ → List String → Option ℚ) (raw : String) :
    Except CrashReason (Option ℚ) :=
  if raw.data = [] then .ok none
  else
    let parsed := splitString raw
    if parsed.length < 3 then .error .eraseOutOfBounds
    else
      let data := parsed.drop 3
      match cppStoi (parsed.getD 1 "") with
      | none => .error .stoiException
      | some id =>
        match translate id data with
        | none => .ok none
        | some v => .ok (some v)

/-- The feedback velocities published for a list of lines, or the first crash. -/
def processLines (translate : ℤ → List String → Option ℚ) :
    List String → Except CrashReason (List ℚ)
  | [] => .ok []
  | l :: ls =>
    match readCanLine translate l with
    | .error r => .error r
    | .ok none => processLines translate ls
    | .ok (some v) =>
      match processLines translate ls with
      | .error r => .error r
      | .ok vs => .ok (v :: vs)

/-- Model of the telemetry-reader thread `readCanData(FILE* fp)` (source lines
151–185). The stream handed to it is `none` when `popen` failed; the source then
calls `fgets` on a null stream, which is undefined behavior. -/
def readCanData (translate : ℤ → List String → Option ℚ)
    (fp : Option (List String)) : Except CrashReason (List ℚ) :=
  match fp with
  | none => .error .fgetsOnNull
  | some lines => processLines translate lines

/-- Observable startup decisions of `main` (source lines 202–222). -/
structure StartupTrace where
  readerStream : Option (List String)
  enteredControlLoop : Bool
deriving DecidableEq

/-- Model of the startup path of `main` (source lines 202–222): the result of
`popen("candump can0", "r")` is never checked against NULL; it is handed as-is to
the `readCanData` thread, and the control loop is entered unconditionally. -/
def mainStartup (popenResult : Option (List String)) : StartupTrace :=
  { readerStream := popenResult, enteredControlLoop := true }

/-! ### Concrete inputs used by the claim theorems -/

/-- Input sequence for C1: the manual brake (g_brake) is 0 when the loop first
reads it and 1 from tick 1 on; everything else is constant. -/
def c1Inputs : ℕ → LoopInput := fun n =>
  { mode := 8, shift := 0, automode := false, targetVelocity := 0,
    manualTargetVelocity := 0, steeringAngle := 0, manualSteeringAngle := 0,
    brake := if n = 0 then 0 else 1 }

/-- A concrete shared state with the automode flag set and distinct Auto/Manual
field values. -/
def c3StateAuto : LoopInput :=
  { mode := 8, shift := 2, automode := true, targetVelocity := 11,
    manualTargetVelocity := 22, steeringAngle := -3, manualSteeringAngle := 44,
    brake := 5 }

/-- The same shared state with the automode flag clear. -/
def c3StateManual : LoopInput := { c3StateAuto with automode := false }

end G30esli

namespace G30esli

/-! ## Helper lemmas on truncation -/

/-- Truncation toward zero commutes with negation. -/
theorem truncTowardZero_neg (q : ℚ) : truncTowardZero (-q) = -truncTowardZero q := by
  rcases lt_trichotomy q 0 with h | h | h
  · rw [truncTowardZero, truncTowardZero, if_pos (by linarith), if_neg (by linarith),
      Int.floor_neg]
  · simp [h, truncTowardZero]
  · rw [truncTowardZero, truncTowardZero, if_neg (by linarith), if_pos (by linarith),
      Int.ceil_neg]

/-- Truncation of a nonnegative value bounded above stays in range. -/
theorem truncTowardZero_nonneg_bounds (q : ℚ) (z : ℤ) (h0 : 0 ≤ q) (h1 : q < z) :
    0 ≤ truncTowardZero q ∧ truncTowardZero q < z := by
  rw [truncTowardZero, if_pos h0]
  exact ⟨Int.floor_nonneg.mpr h0, Int.floor_lt.mpr (by exact_mod_cast h1)⟩

/-- Truncation does not increase absolute value beyond a symmetric bound. -/
theorem truncTowardZero_abs_le (q : ℚ) (z : ℤ) (h0 : 0 ≤ (z:ℚ)) (h1 : -(z:ℚ) ≤ q)
    (h2 : q ≤ z) : -z ≤ truncTowardZero q ∧ truncTowardZero q ≤ z := by
  rw [truncTowardZero]
  by_cases h : 0 ≤ q
  · rw [if_pos h]
    constructor
    · have hf := Int.floor_nonneg.mpr h
      have hz : (0:ℤ) ≤ z := by exact_mod_cast h0
      omega
    · have hf : (⌊q⌋ : ℚ) ≤ z := le_trans (Int.floor_le q) h2
      exact_mod_cast hf
  · rw [if_neg h]
    constructor
    · have hc : (-z : ℚ) ≤ ⌈q⌉ := le_trans h1 (Int.le_ceil q)
      exact_mod_cast hc
    · have hc : ⌈q⌉ ≤ 0 := Int.ceil_le.mpr (by push_cast; linarith)
      have hz : (0:ℤ) ≤ z := by exact_mod_cast h0
      omega

/-! ## Claim C1 -/

/-- C1: the claim — that the brake byte transmitted each tick equals the arbiter's
current brake at that tick — is violated by the code: `static unsigned char brake
= g_brake;` (source line 230) initializes the local only on the first iteration, so
when g_brake is 0 at tick 0 and 1 at tick 1, the frame sent at tick 1 (and its
byte 6) still carries 0, not the current value 1. -/
theorem c1_brake_byte_frozen :
    (c1Inputs 1).brake = 1 ∧
    (sentFrame c1Inputs 1).brake = 0 ∧
    (setCanData (sentFrame c1Inputs 1)).getD 6 999 = 0 := by decide

/-! ## Claim C2 -/

/-- C2: the claim — that malformed telemetry lines are silently dropped with no
crash — is violated by the code: a line whose identifier token is not a number makes
the uncaught `std::stoi` exception (source line 171) kill the reader, and a line
with fewer than 3 tokens makes `data.erase(data.begin(), data.begin() + 3)` (source
line 169) undefined behavior; neither line is quietly skipped. This holds for every
behavior of the external per-identifier decoder. -/
theorem c2_reader_crashes_on_malformed_line
    (translate : ℤ → List String → Option ℚ) :
    readCanLine translate "can0 foo [8] 01" = .error .stoiException ∧
    readCanLine translate "can0" = .error .eraseOutOfBounds :=
  ⟨rfl, rfl⟩

/-! ## Claim C3 -/

/-- C3: the per-tick read of the arbiter state resolves velocity and steeringAngle
together from the Auto fields when the automode flag is set and from the Manual
fields when it is clear — never mixing the two — while brake and mode are taken
from the manually-written globals (g_brake is written only by
current_joy_callback, g_mode only by the keyboard thread) independently of the
flag. -/
theorem c3_select_resolves_by_flag (s : LoopInput) :
    (s.automode = true →
      (selectCommand s).velocity = s.targetVelocity ∧
      (selectCommand s).steeringAngle = s.steeringAngle) ∧
    (s.automode = false →
      (selectCommand s).velocity = s.manualTargetVelocity ∧
      (selectCommand s).steeringAngle = s.manualSteeringAngle) ∧
    (selectCommand s).brake = s.brake ∧
    (selectCommand s).mode = intToUChar s.mode ∧
    (∀ b, (selectCommand { s with automode := b }).brake = (selectCommand s).brake ∧
      (selectCommand { s with automode := b }).mode = (selectCommand s).mode) := by
  refine ⟨fun h => ?_, fun h => ?_, rfl, rfl, fun b => ⟨rfl, rfl⟩⟩
  · simp [selectCommand, h]
  · simp [selectCommand, h]

/-- C3 witness: at a state with automode set, the selected velocity and steering are
the Auto fields; with it clear, the Manual fields; brake is the manual value in both
cases. -/
theorem c3_select_resolves_by_flag_witness :
    (selectCommand c3StateAuto).velocity = 11 ∧
    (selectCommand c3StateAuto).steeringAngle = -3 ∧
    (selectCommand c3StateAuto).brake = 5 ∧
    (selectCommand c3StateManual).velocity = 22 := by
  have hA := c3_select_resolves_by_flag c3StateAuto
  have hB := c3_select_resolves_by_flag c3StateManual
  exact ⟨(hA.1 rfl).1, (hA.1 rfl).2, hA.2.2.1, (hB.2.1 rfl).1⟩

/-! ## Claim C4 -/

/-- C4 counterexample: at the autonomous command linear.x = 0.075 m/s the real
velocity times 10 is 2.7; rounding toward nearest gives 3, but the code stores 2,
because the C++ float→integer conversion truncates toward zero. (The pre-offset
steering angle plays no role in the velocity field; 0 is used.) -/
theorem c4_velocity_not_rounded_to_nearest :
    (twist_cmd_callback 0 (3/40)).targetVelocity = some 2 ∧
    round ((3/40 : ℚ) * 3.6 * 10) = 3 := by
  have h : ((3/40 : ℚ) * 3.6 * 10) = 27/10 := by norm_num
  have ht : truncTowardZero (27/10 : ℚ) = 2 := by
    rw [truncTowardZero, if_pos (by norm_num), Int.floor_eq_iff]
    exact ⟨by norm_num, by norm_num⟩
  constructor
  · show doubleToUInt16 ((3/40 : ℚ) * 3.6 * 10) = some 2
    rw [doubleToUInt16, h, ht]
    rfl
  · rw [h, round_eq, show (27/10 : ℚ) + 1/2 = 16/5 by norm_num, Int.floor_eq_iff]
    exact ⟨by norm_num, by norm_num⟩

/-- C4 amended: the stored fixed-point fields are the real values times 10
truncated toward zero (the C++ float→integral conversion), and the stored steering
field equals the negation of trunc(10 × (computeSteeringAngle + 8.0)) — the 8.0°
calibration offset is added before scaling and the sign of the scaled result is
negated — whenever the scaled values lie in the ranges of uint16_t and int16_t. -/
theorem c4_fields_truncated_toward_zero (steer l : ℚ) (hl0 : 0 ≤ l)
    (hl1 : l * 36 < 65536) (hs0 : -32767 ≤ (steer + 8) * 10)
    (hs1 : (steer + 8) * 10 ≤ 32767) :
    (twist_cmd_callback steer l).targetVelocity
      = some (truncTowardZero (l * 3.6 * 10)).toNat ∧
    (twist_cmd_callback steer l).steeringAngle
      = some (-truncTowardZero ((steer + 8) * 10)) := by
  constructor
  · show doubleToUInt16 (l * 3.6 * 10) = _
    rw [doubleToUInt16]
    have h36 : l * 3.6 * 10 = l * 36 := by ring
    have hb := truncTowardZero_nonneg_bounds (l * 3.6 * 10) 65536
      (by rw [h36]; positivity) (by rw [h36]; exact_mod_cast hl1)
    rw [if_pos hb]
  · show doubleToInt16 ((steer + 8) * 10 * (-1)) = _
    rw [doubleToInt16]
    have hneg : (steer + 8) * 10 * (-1) = -((steer + 8) * 10) := by ring
    rw [hneg, truncTowardZero_neg]
    have hb := truncTowardZero_abs_le ((steer + 8) * 10) 32767 (by norm_num)
      (by push_cast at hs0 ⊢; linarith) (by push_cast at hs1 ⊢; linarith)
    rw [if_pos (by omega)]

/-- C4 witness: a command with linear.x = 2 m/s and pre-offset steering angle 1°
stores velocity 72 (7.2 km/h × 10) and steering −90 (−(1 + 8) × 10). -/
theorem c4_fields_truncated_toward_zero_witness :
    (twist_cmd_callback 1 2).targetVelocity = some 72 ∧
    (twist_cmd_callback 1 2).steeringAngle = some (-90) := by
  have h := c4_fields_truncated_toward_zero 1 2 (by norm_num) (by norm_num)
    (by norm_num) (by norm_num)
  constructor
  · rw [h.1, show ((2:ℚ) * 3.6 * 10) = 72 by norm_num,
      show truncTowardZero (72 : ℚ) = 72 by
        rw [truncTowardZero, if_pos (by norm_num)]; norm_num]
    rfl
  · rw [h.2, show (((1:ℚ) + 8) * 10) = 90 by norm_num,
      show truncTowardZero (90 : ℚ) = 90 by
        rw [truncTowardZero, if_pos (by norm_num)]; norm_num]

/-! ## Claim C5 -/

/-- C5: the claim — that a failed acquisition of the telemetry stream is fatal
before the control loop — is violated by the code: the result of
popen("candump can0") is never checked (source line 214); a failed (NULL) stream is
handed as-is to the readCanData thread, where the first fgets call on it is
undefined behavior, and the control loop is entered regardless. This holds for
every behavior of the external per-identifier decoder. -/
theorem c5_startup_does_not_fail_fast (translate : ℤ → List String → Option ℚ) :
    (mainStartup none).enteredControlLoop = true ∧
    (mainStartup none).readerStream = none ∧
    readCanData translate (mainStartup none).readerStream = .error .fgetsOnNull :=
  ⟨rfl, rfl, rfl⟩

/-! ## Claim C6 -/

/-- C6 counterexample: a manual event with the steering axis (0) deflected to 1.0 —
or the throttle trigger axis (4) deflected — and no buttons pressed and axes 1/2 at
rest leaves AutomodeFlag set: the code (source line 89) tests axes[1] and axes[2],
not the steering or throttle axes, so a non-zero steering axis alone does not clear
the flag. -/
theorem c6_steering_axis_does_not_clear_automode :
    (current_joy_callback (fun _ => 0) (fun i => if i = 0 then 1 else 0)
      true).automode = true ∧
    (current_joy_callback (fun _ => 0) (fun i => if i = 4 then 1 else 0)
      true).automode = true :=
  ⟨rfl, rfl⟩

/-- C6 amended: the handler clears AutomodeFlag exactly on the emergency/cancel
button (0) or a non-zero cancel-trigger axis 1 or 2 (not the steering axis 0 or
throttle axis 4), provided the resume-autonomy button (12) — which is processed
last and overrides — is not pressed in the same event. -/
theorem c6_cancel_axes_clear_automode (buttons : ℕ → ℤ) (axes : ℕ → ℚ) (a0 : Bool)
    (h : buttons 0 = 1 ∨ axes 1 ≠ 0 ∨ axes 2 ≠ 0) (h12 : buttons 12 ≠ 1) :
    (current_joy_callback buttons axes a0).automode = false := by
  simp only [current_joy_callback]
  rw [if_pos h, if_neg h12]

/-- C6 witness: an event with only the emergency button pressed clears the flag. -/
theorem c6_cancel_axes_clear_automode_witness :
    (current_joy_callback (fun i => if i = 0 then 1 else 0) (fun _ => 0)
      true).automode = false :=
  c6_cancel_axes_clear_automode (fun i => if i = 0 then 1 else 0) (fun _ => 0) true
    (Or.inl (by norm_num)) (by norm_num)

/-! ## Claim C7 -/

/-- C7: the manual steering angle before fixed-point scaling is
ratio × axes[0] + 8.0 with ratio = 20.0 + 17.0 × ((−axes[3] + 1.0)/2.0); for
axes[3] ∈ [−1, 1] the ratio lies in [20, 37], and it strictly increases as the
trigger axis value decreases (deeper pull ⇒ wider steering range). -/
theorem c7_dynamic_steering_ratio (buttons : ℕ → ℤ) (axes : ℕ → ℚ) (a0 : Bool) :
    (current_joy_callback buttons axes a0).manualSteering
      = doubleToInt16 ((steering_angle_ratio_deg (axes 3) * axes 0 + 8) * 10 * (-1)) ∧
    steering_angle_ratio_deg (axes 3) = 20 + 17 * ((-(axes 3) + 1) / 2) ∧
    (-1 ≤ axes 3 → axes 3 ≤ 1 →
      20 ≤ steering_angle_ratio_deg (axes 3) ∧
        steering_angle_ratio_deg (axes 3) ≤ 37) ∧
    (∀ a b : ℚ, a < b → steering_angle_ratio_deg b < steering_angle_ratio_deg a) := by
  refine ⟨rfl, rfl, fun h1 h2 => ⟨?_, ?_⟩, fun a b hab => ?_⟩
  · rw [steering_angle_ratio_deg]; linarith
  · rw [steering_angle_ratio_deg]; linarith
  · rw [steering_angle_ratio_deg, steering_angle_ratio_deg]; linarith

/-- C7 witness: at trigger value 0 the ratio is within [20, 37], a deeper pull
(−1/2) gives a strictly larger ratio, and the stored manual steering follows the
ratio formula. -/
theorem c7_dynamic_steering_ratio_witness :
    20 ≤ steering_angle_ratio_deg 0 ∧ steering_angle_ratio_deg 0 ≤ 37 ∧
    steering_angle_ratio_deg 0 < steering_angle_ratio_deg (-1/2) ∧
    (current_joy_callback (fun _ => 0) (fun _ => 0) false).manualSteering
      = doubleToInt16 ((steering_angle_ratio_deg 0 * 0 + 8) * 10 * (-1)) := by
  have h := c7_dynamic_steering_ratio (fun _ => 0) (fun _ => 0) false
  exact ⟨(h.2.2.1 (by norm_num) (by norm_num)).1,
    (h.2.2.1 (by norm_num) (by norm_num)).2,
    h.2.2.2 (-1/2) 0 (by norm_num), h.1⟩

/-! ## Claim C8 -/

/-- Heartbeat value carried in the loop state before tick n. -/
theorem loopState_heartbeat (inputs : ℕ → LoopInput) :
    ∀ n, (loopState inputs n).heartbeat = n % 256 := by
  intro n
  induction n with
  | zero => rfl
  | succ k ih =>
    show (loopTick (inputs k) (loopState inputs k)).2.heartbeat = (k+1) % 256
    simp only [loopTick]
    rw [ih]
    omega

/-- C8: for every input history, the heartbeat byte of the frame sent at tick n is
n mod 256 — so successive frames increment it by exactly 1 mod 256 with no skips or
repeats and wrap from 255 to 0 without error, independent of mode or command
changes. -/
theorem c8_heartbeat_increments_mod_256 (inputs : ℕ → LoopInput) (n : ℕ) :
    (sentFrame inputs n).heartbeat = n % 256 ∧
    (sentFrame inputs (n+1)).heartbeat
      = ((sentFrame inputs n).heartbeat + 1) % 256 ∧
    (setCanData (sentFrame inputs n)).getD 7 999 = n % 256 := by
  have h : ∀ m, (sentFrame inputs m).heartbeat = m % 256 := by
    intro m
    show (loopTick (inputs m) (loopState inputs m)).1.heartbeat = m % 256
    simp only [loopTick]
    exact loopState_heartbeat inputs m
  refine ⟨h n, ?_, ?_⟩
  · rw [h n, h (n+1)]
    omega
  · simp only [setCanData, List.getD]
    rw [h n]
    simp

/-! ## Claim C9 -/

/-- C9 counterexample: a manual event with the emergency button (0) and the
resume-autonomy button (12) both pressed leaves AutomodeFlag set — the resume
branch runs last (source lines 123–127) and overrides the clearing — so the claim
that every event with button 0 pressed clears the flag fails. -/
theorem c9_resume_button_overrides_clear :
    ((fun i => if i = 0 ∨ i = 12 then (1:ℤ) else 0) 0 = 1) ∧
    (current_joy_callback (fun i => if i = 0 ∨ i = 12 then 1 else 0) (fun _ => 0)
      false).automode = true :=
  ⟨rfl, rfl⟩

/-- C9 amended: an event with the emergency button (0) pressed always sets the
brake level to 1, regardless of the other brake buttons (2 and 3) and of every
other control; it clears AutomodeFlag provided the resume-autonomy button (12) is
not pressed in the same event. -/
theorem c9_emergency_button_brake_level_one (buttons : ℕ → ℤ) (axes : ℕ → ℚ)
    (a0 : Bool) (h : buttons 0 = 1) :
    (current_joy_callback buttons axes a0).brake = 1 ∧
    (buttons 12 ≠ 1 → (current_joy_callback buttons axes a0).automode = false) := by
  constructor
  · simp only [current_joy_callback]
    rw [if_pos h]
  · intro h12
    simp only [current_joy_callback]
    rw [if_pos (Or.inl h), if_neg h12]

/-- C9 witness: with the emergency button and both alternate brake buttons pressed
(resume unpressed), the brake level is 1 and the flag is cleared. -/
theorem c9_emergency_button_brake_level_one_witness :
    (current_joy_callback (fun i => if i = 0 ∨ i = 2 ∨ i = 3 then 1 else 0)
      (fun _ => 0) true).brake = 1 ∧
    (current_joy_callback (fun i => if i = 0 ∨ i = 2 ∨ i = 3 then 1 else 0)
      (fun _ => 0) true).automode = false := by
  have h := c9_emergency_button_brake_level_one
    (fun i => if i = 0 ∨ i = 2 ∨ i = 3 then 1 else 0) (fun _ => 0) true
    (by norm_num)
  exact ⟨h.1, h.2 (by norm_num)⟩

/-! ## Claim C10 -/

/-- C10 counterexample: the autonomous command linear.x = −0.01 m/s has strictly
negative linear velocity, yet the conversion of the scaled value −0.36 to the
unsigned field is defined and in range: truncation toward zero gives 0, so the
stored field is 0 — the claim that every negative command leaves the conversion
with no in-range defined result fails. -/
theorem c10_small_negative_velocity_is_defined_zero :
    ((-1/100 : ℚ) < 0) ∧
    (twist_cmd_callback 0 (-1/100)).targetVelocity = some 0 := by
  constructor
  · norm_num
  · show doubleToUInt16 ((-1/100 : ℚ) * 3.6 * 10) = some 0
    have h : ((-1/100 : ℚ) * 3.6 * 10) = -9/25 := by norm_num
    have ht : truncTowardZero (-9/25 : ℚ) = 0 := by
      rw [truncTowardZero, if_neg (by norm_num), Int.ceil_eq_iff]
      exact ⟨by norm_num, by norm_num⟩
    rw [doubleToUInt16, h, ht]
    norm_num

/-- C10 amended: reverse motion is never representable in the outgoing frame — for
scaled values at or below −1 (linear velocity ≤ −1/36 m/s) the conversion to the
unsigned 16-bit field is undefined, and for negative commands above that the stored
field is 0, never a negative speed; the manual path, for trigger values in [−1, 1],
only ever stores 0 or a value in [30, 190]. -/
theorem c10_reverse_not_representable :
    (∀ steer l : ℚ, l * 36 ≤ -1 →
      (twist_cmd_callback steer l).targetVelocity = none) ∧
    (∀ steer l : ℚ, l < 0 → -1 < l * 36 →
      (twist_cmd_callback steer l).targetVelocity = some 0) ∧
    (∀ (buttons : ℕ → ℤ) (axes : ℕ → ℚ) (a0 : Bool), -1 ≤ axes 4 → axes 4 ≤ 1 →
      ∃ v, (current_joy_callback buttons axes a0).manualVelocity = some v ∧
        (v = 0 ∨ (30 ≤ v ∧ v ≤ 190))) := by
  refine ⟨fun steer l hl => ?_, fun steer l hl0 hl1 => ?_,
    fun buttons axes a0 h0 h1 => ?_⟩
  · show doubleToUInt16 (l * 3.6 * 10) = none
    have h36 : l * 3.6 * 10 = l * 36 := by ring
    have ht : truncTowardZero (l * 36) ≤ -1 := by
      rw [truncTowardZero, if_neg (by linarith)]
      exact Int.ceil_le.mpr (by push_cast; linarith)
    rw [doubleToUInt16, h36, if_neg (by omega)]
  · show doubleToUInt16 (l * 3.6 * 10) = some 0
    have h36 : l * 3.6 * 10 = l * 36 := by ring
    have ht : truncTowardZero (l * 36) = 0 := by
      rw [truncTowardZero, if_neg (by nlinarith)]
      rw [Int.ceil_eq_iff]
      constructor
      · push_cast; linarith
      · push_cast; nlinarith
    rw [doubleToUInt16, h36, ht]
    norm_num
  · simp only [current_joy_callback]
    by_cases hb : buttons 1 = 1
    · rw [if_pos hb]
      set x : ℚ := (16 * ((-(axes 4) + 1) / 2) + 3) * 10 with hx
      have hx0 : 30 ≤ x := by rw [hx]; linarith
      have hx1 : x ≤ 190 := by rw [hx]; linarith
      have hpos : (0:ℚ) ≤ x := by linarith
      have ht : truncTowardZero x = ⌊x⌋ := by rw [truncTowardZero, if_pos hpos]
      have hf0 : (30:ℤ) ≤ ⌊x⌋ := Int.le_floor.mpr (by push_cast; linarith)
      have hf1 : ⌊x⌋ ≤ 190 := by
        have hc : (⌊x⌋ : ℚ) ≤ 190 := le_trans (Int.floor_le x) hx1
        exact_mod_cast hc
      refine ⟨(⌊x⌋).toNat, ?_, Or.inr ⟨by omega, by omega⟩⟩
      rw [doubleToUInt16, ht, if_pos (by omega)]
    · rw [if_neg hb]
      refine ⟨0, ?_, Or.inl rfl⟩
      have h0' : (0:ℚ) * 10 = 0 := by norm_num
      rw [doubleToUInt16, h0']
      rw [show truncTowardZero 0 = 0 by rw [truncTowardZero]; norm_num]
      norm_num

/-- C10 witness: linear.x = −1 m/s makes the conversion undefined; −0.02 m/s stores
0; an idle manual event (trigger at rest) stores 0. -/
theorem c10_reverse_not_representable_witness :
    (twist_cmd_callback 0 (-1)).targetVelocity = none ∧
    (twist_cmd_callback 0 (-1/50)).targetVelocity = some 0 ∧
    (∃ v, (current_joy_callback (fun _ => 0) (fun _ => 0) false).manualVelocity
        = some v ∧ (v = 0 ∨ (30 ≤ v ∧ v ≤ 190))) := by
  have h := c10_reverse_not_representable
  exact ⟨h.1 0 (-1) (by norm_num), h.2.1 0 (-1/50) (by norm_num) (by norm_num),
    h.2.2 (fun _ => 0) (fun _ => 0) false (by norm_num) (by norm_num)⟩

end G30esli
